import Mathlib

/-!
Verification of the Corviu change-detection pipeline.

The definitions below are a shallow embedding of the change-detection and
impact-classification code in src/main.py (function check_project_for_changes,
class EmailService, endpoint get_roi_metrics) and of get_roi_metrics in
src/main_backup.py.  External effects (HTTP fetches from the hosting
platform, the wall clock, uuid generation) are passed in as explicit
parameters; everything else is translated directly from the source.
-/

namespace Corviu

/-- Priority tiers named by the specification and used as string values in the
change records of the code. -/
inductive Priority where
  | low
  | medium
  | high
  | critical
  deriving DecidableEq, Repr

/-- Bool test that the first character list starts with the second. -/
def startsWithL : List Char → List Char → Bool
  | _, [] => true
  | [], _ :: _ => false
  | a :: as, b :: bs => a == b && startsWithL as bs

/-- Bool test that pat occurs as a contiguous substring of the second list.
This models the Python membership test `pat in s` on strings. -/
def containsSub (pat : List Char) : List Char → Bool
  | [] => startsWithL [] pat
  | a :: as => startsWithL (a :: as) pat || containsSub pat as

/-- ASCII lowercasing of one character, the effect Python str.lower has on the
ASCII file names handled here. -/
def lowerChar (c : Char) : Char :=
  if 65 ≤ c.toNat ∧ c.toNat ≤ 90 then Char.ofNat (c.toNat + 32) else c

/-- The character list of a name after lowercasing, modelling
file_name.lower(). -/
def lowerName (name : String) : List Char :=
  name.toList.map lowerChar

/-- Substring test against the lowered file name, modelling the source
expression `ext in file_name.lower()`. -/
def patInName (name pat : String) : Bool :=
  containsSub pat.toList (lowerName name)

/-- The extension patterns of src/main.py line 501, duplicate .rvt included. -/
def trackedPatterns : List String :=
  [ ".rvt", ".dwg", ".ifc", ".nwd", ".nwc", ".rvt", ".rfa"]

/-- The file selection test of src/main.py line 501:
any(ext in file_name.lower() for ext in [...]). -/
def isModelFile (name : String) : Bool :=
  trackedPatterns.any (fun pat => patInName name pat)

/-- One version record with the attributes the source reads: versionNumber,
storageSize, lastModifiedTime, lastModifiedUserName, comments. -/
structure VersionRecord where
  versionNumber : Nat
  storageSize : Int
  lastModifiedTime : Nat
  modifiedBy : String
  comment : String
  deriving DecidableEq, Repr

/-- The details sub-record of a detected change, src/main.py lines 555-561. -/
structure ChangeDetails where
  file_size_change : Int
  last_modified : Nat
  modified_by : String
  version_number : Nat
  previous_version : Nat
  comment : String
  deriving DecidableEq, Repr

/-- One change record as stored in changes_db.  The uuid id is an opaque
fresh token and is not modelled.  The fabricated fallback records carry no
details sub-record, hence the Option.  No record ever carries a
schedule_impact field; every consumer reads it with default 0. -/
structure Change where
  element_name : String
  description : String
  cost_impact : ℚ
  priority : Priority
  detected_at : Nat
  details : Option ChangeDetails
  deriving DecidableEq, Repr

/-- Baseline cost selection by file type, src/main.py lines 527-535. -/
def baseCostRaw (name : String) : ℚ :=
  if patInName name ".rvt" then 15000
  else if patInName name ".dwg" then 8000
  else if patInName name ".ifc" then 10000
  else 5000

/-- The large-change threshold of src/main.py line 538 (more than 1 MB). -/
def largeChangeThreshold : Int := 1000000

/-- The magnification factor of src/main.py line 539 (base_cost *= 1.5). -/
def magnificationFactor : ℚ := 3 / 2

/-- The cost estimate of src/main.py lines 527-539: tiered baseline,
magnified when the absolute size delta exceeds the threshold. -/
def costImpact (name : String) (sizeDelta : Int) : ℚ :=
  if largeChangeThreshold < |sizeDelta| then baseCostRaw name * magnificationFactor
  else baseCostRaw name

/-- The priority assignment of src/main.py lines 541-546: medium by default,
high for a name matching .rvt, critical for a .rvt match whose absolute size
delta exceeds 5000000 bytes. -/
def changePriority (name : String) (sizeDelta : Int) : Priority :=
  if patInName name ".rvt" then
    if 5000000 < |sizeDelta| then Priority.critical else Priority.high
  else Priority.medium

/-- Assembly of one change record from the two latest versions,
src/main.py lines 519-561.  t is the datetime.now() sample taken when the
record is created. -/
def mkChange (name : String) (latest previous : VersionRecord) (t : Nat) : Change :=
  let d := latest.storageSize - previous.storageSize
  { element_name := name
  , description :=
      "Updated from v" ++ toString previous.versionNumber ++
        " to v" ++ toString latest.versionNumber
  , cost_impact := costImpact name d
  , priority := changePriority name d
  , detected_at := t
  , details := some
      { file_size_change := d
      , last_modified := latest.lastModifiedTime
      , modified_by := latest.modifiedBy
      , version_number := latest.versionNumber
      , previous_version := previous.versionNumber
      , comment := latest.comment } }

/-- Per-file comparison, src/main.py lines 515-561: a change record is built
exactly when the fetched version list (newest first) has at least two
entries. -/
def compareVersions (name : String) (versions : List VersionRecord) (t : Nat) :
    Option Change :=
  match versions with
  | latest :: previous :: _ => some (mkChange name latest previous t)
  | _ => none

/-- One item of the folder contents listing together with its fetched version
history (newest first), src/main.py lines 495-518. -/
structure FileEntry where
  itemType : String
  name : String
  versions : List VersionRecord
  deriving Repr

/-- The model-file selection loop of src/main.py lines 497-504: keep items
whose type is "items" and whose display name passes the pattern test. -/
def selectModelFiles (contents : List FileEntry) : List FileEntry :=
  contents.filter (fun f => f.itemType == "items" && isModelFile f.name)

/-- The detection loop of src/main.py lines 512-563 over the selected model
files.  now is the wall clock, sampled once per created change record; k
counts the samples taken so far. -/
def detectLoop (now : Nat → Nat) : Nat → List FileEntry → List Change
  | _, [] => []
  | k, f :: fs =>
      match compareVersions f.name f.versions (now k) with
      | some c => c :: detectLoop now (k + 1) fs
      | none => detectLoop now k fs

/-- The fabricated fallback record stored when no Autodesk project is linked,
src/main.py lines 423-432. -/
def mockNoLinkChange (t : Nat) : Change :=
  { element_name := "Demo: Level 2 Slab"
  , description := "No Autodesk project linked"
  , cost_impact := 12500
  , priority := Priority.medium
  , detected_at := t
  , details := none }

/-- The fabricated fallback record stored when the stored token is missing or
expired, src/main.py lines 441-450. -/
def mockNoTokenChange (t : Nat) : Change :=
  { element_name := "Demo: Level 2 Slab"
  , description := "Token expired - using demo data"
  , cost_impact := 12500
  , priority := Priority.medium
  , detected_at := t
  , details := none }

/-- Outcome of the external Autodesk calls inside the try block of
check_project_for_changes: no folder resolved, folder contents fetched, or an
exception raised anywhere in the block. -/
inductive FetchResult where
  | noFolder
  | ok (contents : List FileEntry)
  | failure
  deriving Repr

/-- The body of check_project_for_changes, src/main.py lines 411-589, as the
list of change records stored into changes_db for the project.  none means
the project id was unknown and nothing was stored.  The source catches every
exception of the try block and stores an empty list; it raises no error
condition on any path. -/
def checkProjectForChanges (projectExists hasAutodeskId hasValidToken : Bool)
    (fetch : FetchResult) (now : Nat → Nat) : Option (List Change) :=
  if projectExists then
    if hasAutodeskId then
      if hasValidToken then
        match fetch with
        | FetchResult.noFolder => some []
        | FetchResult.ok contents => some (detectLoop now 0 (selectModelFiles contents))
        | FetchResult.failure => some []
      else some [ mockNoTokenChange (now 0)]
    else some [ mockNoLinkChange (now 0)]
  else none

/-- The metrics returned by get_roi_metrics in src/main.py lines 1735-1756. -/
structure RoiReport where
  meetings_saved : Nat
  hours_saved : Nat
  cost_saved : Nat
  decisions_accelerated : Nat
  deriving DecidableEq, Repr

/-- get_roi_metrics of src/main.py lines 1735-1756, computed over the stored
change list of a project. -/
def getRoiMetrics (changes : List Change) : RoiReport :=
  let meetings_saved := changes.length / 3
  let hours_saved := meetings_saved * 2
  let cost_saved := hours_saved * 150
  { meetings_saved := meetings_saved
  , hours_saved := hours_saved
  , cost_saved := cost_saved
  , decisions_accelerated := changes.length }

/-- The metrics returned by get_roi_metrics in src/main_backup.py. -/
structure RoiReportBackup where
  meetings_saved : Nat
  hours_saved : ℚ
  cost_saved : ℚ
  decisions_accelerated : Nat
  deriving DecidableEq, Repr

/-- get_roi_metrics of src/main_backup.py lines 210-229.  The endpoint rounds
hours_saved to 1 decimal place and cost_saved to 2; both values are already
exact multiples of 0.5 and 77.5 respectively, so the rounding is the identity
and is not repeated here. -/
def getRoiMetricsBackup (changes : List Change) : RoiReportBackup :=
  let meetings_saved := changes.length / 2
  let hours_saved : ℚ := (changes.length : ℚ) * (1 / 2)
  let cost_saved := hours_saved * 155
  let decisions_accelerated :=
    (changes.filter (fun c =>
      c.priority == Priority.critical || c.priority == Priority.high)).length
  { meetings_saved := meetings_saved
  , hours_saved := hours_saved
  , cost_saved := cost_saved
  , decisions_accelerated := decisions_accelerated }

/-- The computable content of EmailService.send_change_report, src/main.py
lines 62-119: headline metrics over the whole change list, and the list of
changes rendered as detail items, which the source limits to changes[:10]. -/
structure EmailReport where
  total_changes : Nat
  critical_count : Nat
  total_cost : ℚ
  detailEntries : List Change
  deriving Repr

/-- Assembly of the emailed change report, src/main.py lines 62-119. -/
def buildChangeReport (changes : List Change) : EmailReport :=
  { total_changes := changes.length
  , critical_count := (changes.filter (fun c => c.priority == Priority.critical)).length
  , total_cost := (changes.map (fun c => c.cost_impact)).sum
  , detailEntries := changes.take 10 }

/-- The decision table of spec section 4.3, evaluated top-down with first
match winning.  Stated from the words of the spec, for comparison with the
priority the code assigns. -/
def classifySpec (cost sched : ℚ) : Priority :=
  if cost > 10000 ∨ sched > 3 then Priority.critical
  else if cost > 5000 ∨ sched > 1 then Priority.high
  else if cost > 1000 ∨ sched > 1 / 2 then Priority.medium
  else Priority.low

/-- Bool test that the first character list ends with the second. -/
def endsWithL : List Char → List Char → Bool
  | [], pat => pat.isEmpty
  | a :: as, pat => (a :: as == pat) || endsWithL as pat

/-- The allow-list of recognized model extensions named by the spec. -/
def allowedExts : List String :=
  [ ".rvt", ".dwg", ".ifc", ".nwd", ".nwc", ".rfa"]

/-- Spec-side selection predicate: the extension of the lowercased file name
(its trailing dot-component) is one of the recognized model formats. -/
def extOnAllowList (name : String) : Bool :=
  allowedExts.any (fun pat => endsWithL (lowerName name) pat.toList)



/-- A wall clock advancing one tick per sample, used for concrete runs. -/
def idClock : Nat → Nat := fun k => k

/-- Version pair of the slab.rvt scenario of spec section 8: sizes 1200000
and 1195000 bytes, delta 5000 bytes. -/
def slabV2 : VersionRecord := ⟨2, 1200000, 2, "alice", ""⟩

/-- The older slab.rvt version of the scenario. -/
def slabV1 : VersionRecord := ⟨1, 1195000, 1, "alice", ""⟩

/-- Latest version of the file a.rvt, 8000000 bytes. -/
def vA2 : VersionRecord := ⟨4, 8000000, 4, "bob", ""⟩

/-- Previous version of the file a.rvt, 6000000 bytes: delta 2000000. -/
def vA1 : VersionRecord := ⟨3, 6000000, 3, "bob", ""⟩

/-- Latest version of the file b.rvt, 10000000 bytes. -/
def vB2 : VersionRecord := ⟨2, 10000000, 2, "bob", ""⟩

/-- Previous version of the file b.rvt, 4000000 bytes: delta 6000000. -/
def vB1 : VersionRecord := ⟨1, 4000000, 1, "bob", ""⟩

/-- A single change of priority medium, for concrete ROI evaluations. -/
def oneMediumChange : Change :=
  { element_name := "girder"
  , description := "metadata edit"
  , cost_impact := 1000
  , priority := Priority.medium
  , detected_at := 0
  , details := none }

/-- A second sample change, for concrete report evaluations. -/
def sampleChange : Change :=
  { element_name := "column"
  , description := "moved"
  , cost_impact := 2000
  , priority := Priority.high
  , detected_at := 1
  , details := none }

/-- A folder item whose extension .txt is off the allow-list although the
name contains the pattern .rvt, with two versions. -/
def oddFile : FileEntry :=
  { itemType := "items"
  , name := "plan.rvt.txt"
  , versions := [⟨2, 500, 2, "carol", ""⟩, ⟨1, 300, 1, "carol", ""⟩] }

/-- A tracked file c.rvt with two versions. -/
def fileC : FileEntry :=
  { itemType := "items"
  , name := "c.rvt"
  , versions := [⟨2, 100, 2, "dave", ""⟩, ⟨1, 50, 1, "dave", ""⟩] }

/-- A tracked file d.rvt with two versions. -/
def fileD : FileEntry :=
  { itemType := "items"
  , name := "d.rvt"
  , versions := [⟨2, 200, 2, "dave", ""⟩, ⟨1, 100, 1, "dave", ""⟩] }

/-- Spec-side count of changes whose priority is critical or high. -/
def countCritHigh (changes : List Change) : Nat :=
  (changes.filter (fun c =>
    c.priority == Priority.critical || c.priority == Priority.high)).length

/-- Bool test that a change list is ordered by detected_at descending
(newest first), the order spec section 4.4 asserts of the feed. -/
def sortedByDetectedDesc : List Change → Bool
  | [] => true
  | [_] => true
  | a :: b :: rest =>
      decide (b.detected_at ≤ a.detected_at) && sortedByDetectedDesc (b :: rest)

/-- A list starts with itself. -/
theorem startsWithL_self (l : List Char) : startsWithL l l = true := by
  induction l with
  | nil => rfl
  | cons a as ih => simp [startsWithL, ih]

/-- A list that starts with pat contains pat. -/
theorem containsSub_of_startsWith (pat s : List Char)
    (h : startsWithL s pat = true) : containsSub pat s = true := by
  cases s with
  | nil => exact h
  | cons a as => simp [containsSub, h]

/-- A list that ends with pat contains pat. -/
theorem containsSub_of_endsWith (pat : List Char) :
    ∀ s : List Char, endsWithL s pat = true → containsSub pat s = true := by
  intro s
  induction s with
  | nil =>
    intro h
    have hp : pat = [] := by
      cases pat with
      | nil => rfl
      | cons b bs => simp [endsWithL, List.isEmpty] at h
    subst hp
    rfl
  | cons a as ih =>
    intro h
    simp only [endsWithL, Bool.or_eq_true] at h
    rcases h with h1 | h2
    · have he : a :: as = pat := eq_of_beq h1
      subst he
      exact containsSub_of_startsWith _ _ (startsWithL_self (a :: as))
    · have hc := ih h2
      simp [containsSub, hc]

/-- Inversion of the per-file comparison: a produced change comes from the
two newest versions via mkChange. -/
theorem compareVersions_eq_some (name : String) (vs : List VersionRecord)
    (t : Nat) (c : Change) (h : compareVersions name vs t = some c) :
    ∃ latest previous rest, vs = latest :: previous :: rest
      ∧ c = mkChange name latest previous t := by
  cases vs with
  | nil => exact Option.noConfusion h
  | cons a tail =>
    cases tail with
    | nil => exact Option.noConfusion h
    | cons b rest =>
      refine ⟨a, b, rest, rfl, ?_⟩
      have h2 : some (mkChange name a b t) = some c := h
      exact (Option.some.inj h2).symm

/-- The inline priority rule only takes the values critical, high and
medium. -/
theorem changePriority_cases (name : String) (d : Int) :
    changePriority name d = Priority.critical
      ∨ changePriority name d = Priority.high
      ∨ changePriority name d = Priority.medium := by
  unfold changePriority
  by_cases h1 : patInName name ".rvt" = true
  · rw [if_pos h1]
    by_cases h2 : (5000000 : Int) < |d|
    · rw [if_pos h2]
      exact Or.inl rfl
    · rw [if_neg h2]
      exact Or.inr (Or.inl rfl)
  · rw [if_neg h1]
    exact Or.inr (Or.inr rfl)

/-- The magnified Revit-tier cost is 22500. -/
theorem costImpact_rvt_large (name : String) (d : Int)
    (h1 : patInName name ".rvt" = true) (h2 : largeChangeThreshold < |d|) :
    costImpact name d = 22500 := by
  unfold costImpact baseCostRaw magnificationFactor
  rw [if_pos h2, if_pos h1]
  norm_num

/-- Every change of the detection loop has a priority among critical, high
and medium. -/
theorem detectLoop_mem_priority (now : Nat → Nat) :
    ∀ (fs : List FileEntry) (k : Nat) (c : Change), c ∈ detectLoop now k fs →
      c.priority = Priority.critical ∨ c.priority = Priority.high
        ∨ c.priority = Priority.medium := by
  intro fs
  induction fs with
  | nil =>
    intro k c h
    simp [detectLoop] at h
  | cons f fs ih =>
    intro k c h
    cases hc : compareVersions f.name f.versions (now k) with
    | none =>
      simp only [detectLoop, hc] at h
      exact ih k c h
    | some c0 =>
      simp only [detectLoop, hc, List.mem_cons] at h
      rcases h with rfl | hm
      · obtain ⟨l, p, rest, hv, hc0⟩ := compareVersions_eq_some _ _ _ _ hc
        rw [hc0]
        exact changePriority_cases f.name (l.storageSize - p.storageSize)
      · exact ih (k + 1) c hm

/-- Every change of the detection loop was stamped with a clock sample taken
at or after the loop entry. -/
theorem detectLoop_mem_time (now : Nat → Nat) :
    ∀ (fs : List FileEntry) (k : Nat) (c : Change), c ∈ detectLoop now k fs →
      ∃ j : Nat, k ≤ j ∧ c.detected_at = now j := by
  intro fs
  induction fs with
  | nil =>
    intro k c h
    simp [detectLoop] at h
  | cons f fs ih =>
    intro k c h
    cases hc : compareVersions f.name f.versions (now k) with
    | none =>
      simp only [detectLoop, hc] at h
      exact ih k c h
    | some c0 =>
      simp only [detectLoop, hc, List.mem_cons] at h
      rcases h with rfl | hm
      · obtain ⟨l, p, rest, hv, hc0⟩ := compareVersions_eq_some _ _ _ _ hc
        rw [hc0]
        exact ⟨k, le_refl k, rfl⟩
      · obtain ⟨j, hj, he⟩ := ih (k + 1) c hm
        exact ⟨j, le_trans (Nat.le_succ k) hj, he⟩

/-- C1: on the slab.rvt scenario (sizes 1200000 and 1195000 bytes, delta 5000,
cost 15000 unmagnified), the code assigns priority high through its inline
file-type rule, while the section 4.3 decision table applied to the pair
(cost_impact, schedule_impact) with the schedule impact read as its default 0
yields critical: the assigned priority is not the table output. -/
theorem C1_priority_not_from_table :
    (compareVersions "slab.rvt" [ slabV2, slabV1] 0).map
        (fun c => (c.cost_impact, c.priority)) = some (15000, Priority.high)
    ∧ classifySpec 15000 0 = Priority.critical := by
  exact ⟨by decide, by decide⟩

/-- C2: with a linked project whose stored token is missing or expired, the
check stores and returns the fabricated demo record (cost 12500, priority
medium) instead of failing; with a valid token and an upstream failure it
stores an empty list.  No path produces a SourceUnavailable condition, so an
empty feed and a failed check are indistinguishable to callers. -/
theorem C2_fallback_fabricates :
    checkProjectForChanges true true false (FetchResult.ok []) idClock
        = some [ mockNoTokenChange 0]
    ∧ checkProjectForChanges true true true FetchResult.failure idClock
        = some [] := by
  exact ⟨rfl, rfl⟩

/-- C3: two changes produced by the detection rules carry the identical
cost_impact 22500 (and no schedule_impact field at all, read as 0 by every
consumer) yet different priorities, so the stored priority is not a function
of the pair (cost_impact, schedule_impact). -/
theorem C3_priority_not_function_of_impacts :
    (compareVersions "a.rvt" [ vA2, vA1] 0).map
        (fun c => (c.cost_impact, c.priority)) = some (22500, Priority.high)
    ∧ (compareVersions "b.rvt" [ vB2, vB1] 1).map
        (fun c => (c.cost_impact, c.priority)) = some (22500, Priority.critical) := by
  constructor
  · show some (costImpact "a.rvt" (vA2.storageSize - vA1.storageSize),
        changePriority "a.rvt" (vA2.storageSize - vA1.storageSize))
      = some (22500, Priority.high)
    rw [costImpact_rvt_large "a.rvt" _ (by decide) (by decide)]
    rw [(by decide : changePriority "a.rvt" (vA2.storageSize - vA1.storageSize)
      = Priority.high)]
  · show some (costImpact "b.rvt" (vB2.storageSize - vB1.storageSize),
        changePriority "b.rvt" (vB2.storageSize - vB1.storageSize))
      = some (22500, Priority.critical)
    rw [costImpact_rvt_large "b.rvt" _ (by decide) (by decide)]
    rw [(by decide : changePriority "b.rvt" (vB2.storageSize - vB1.storageSize)
      = Priority.critical)]

/-- C4 counterexample: for a feed holding one medium change, get_roi_metrics
of src/main.py returns decisions_accelerated 1, the total number of changes,
while the count of critical-or-high changes is 0. -/
theorem C4_total_counted_as_decisions :
    (getRoiMetrics [ oneMediumChange]).decisions_accelerated = 1
    ∧ countCritHigh [ oneMediumChange] = 0 := by
  exact ⟨rfl, rfl⟩

/-- C4 amended: get_roi_metrics of src/main_backup.py returns
decisions_accelerated equal to the count of critical-or-high changes, but the
current get_roi_metrics of src/main.py returns the total number of changes
instead. -/
theorem C4_decisions_accelerated (changes : List Change) :
    (getRoiMetricsBackup changes).decisions_accelerated = countCritHigh changes
    ∧ (getRoiMetrics changes).decisions_accelerated = changes.length := by
  exact ⟨rfl, rfl⟩

/-- C5 counterexample: plan.rvt.txt has extension .txt, which is not on the
allow-list, yet the substring test selects it and the check reports a change
for it. -/
theorem C5_off_list_file_reported :
    extOnAllowList "plan.rvt.txt" = false
    ∧ (checkProjectForChanges true true true (FetchResult.ok [ oddFile]) idClock).map
        (fun cs => cs.map (fun c => c.element_name)) = some [ "plan.rvt.txt"] := by
  exact ⟨by decide, rfl⟩

/-- C5 amended: selection tests substring containment of the lowered display
name against the pattern list, so every file whose extension is on the
allow-list is selected, but selection is not restricted to such files. -/
theorem C5_ext_implies_selected (name : String)
    (h : extOnAllowList name = true) : isModelFile name = true := by
  unfold extOnAllowList at h
  rw [List.any_eq_true] at h
  obtain ⟨pat, hmem, hpat⟩ := h
  unfold isModelFile
  rw [List.any_eq_true]
  refine ⟨pat, ?_, ?_⟩
  · simp only [allowedExts, List.mem_cons, List.not_mem_nil, or_false] at hmem
    rcases hmem with rfl | rfl | rfl | rfl | rfl | rfl <;> simp [trackedPatterns]
  · exact containsSub_of_endsWith pat.toList (lowerName name) hpat

/-- C5 witness: model.rvt has its extension on the allow-list and is
selected. -/
theorem C5_ext_implies_selected_witness :
    extOnAllowList "model.rvt" = true ∧ isModelFile "model.rvt" = true :=
  ⟨by decide, C5_ext_implies_selected "model.rvt" (by decide)⟩

/-- C6 counterexample: with the wall clock advancing between the two change
creations, the stored feed carries detected_at values 0 then 1, which is not
descending: the builder never sorts, and newest-first fails as soon as two
changes have distinct timestamps. -/
theorem C6_feed_not_sorted_descending :
    (checkProjectForChanges true true true (FetchResult.ok [ fileC, fileD]) idClock).map
        (fun cs => (cs.map (fun c => c.detected_at), sortedByDetectedDesc cs))
      = some ([0, 1], false) := by
  rfl

/-- C6 amended: the feed is returned in file-iteration order with no sort, so
whenever the wall clock is monotone over successive samples the detected_at
values are non-decreasing along the list (oldest first), the reverse of the
descending order the claim asserts. -/
theorem C6_times_nondecreasing (now : Nat → Nat)
    (hmono : ∀ i j : Nat, i ≤ j → now i ≤ now j) (fs : List FileEntry) (k : Nat) :
    List.Pairwise (fun a b => a.detected_at ≤ b.detected_at)
      (detectLoop now k fs) := by
  induction fs generalizing k with
  | nil => simp [detectLoop]
  | cons f fs ih =>
    cases hc : compareVersions f.name f.versions (now k) with
    | none =>
      simpa only [detectLoop, hc] using ih k
    | some c0 =>
      simp only [detectLoop, hc]
      refine List.Pairwise.cons ?_ (ih (k + 1))
      intro b hb
      obtain ⟨j, hj, he⟩ := detectLoop_mem_time now fs (k + 1) b hb
      obtain ⟨l, p, rest, hv, hc0⟩ := compareVersions_eq_some _ _ _ _ hc
      rw [hc0, he]
      exact hmono k j (le_trans (Nat.le_succ k) hj)

/-- C6 witness: on a concrete two-file run with the identity clock, the loop
output is pairwise non-decreasing in detected_at. -/
theorem C6_times_nondecreasing_witness :
    List.Pairwise (fun a b => a.detected_at ≤ b.detected_at)
      (detectLoop idClock 0 [ fileC, fileD]) :=
  C6_times_nondecreasing idClock (fun _ _ h => h) [ fileC, fileD] 0

/-- C7: the estimated cost equals the baseline times the magnification factor
exactly when the absolute size delta exceeds the large-change threshold and
the plain baseline otherwise; a file matching .rvt whose versions differ by
more than 5000000 bytes gets the magnified cost 22500 and priority
critical. -/
theorem C7_magnification (name : String) (d : Int) :
    (largeChangeThreshold < |d| →
        costImpact name d = baseCostRaw name * magnificationFactor)
    ∧ (¬ largeChangeThreshold < |d| → costImpact name d = baseCostRaw name)
    ∧ (patInName name ".rvt" = true → (5000000 : Int) < |d| →
        costImpact name d = 22500 ∧ changePriority name d = Priority.critical) := by
  refine ⟨?_, ?_, ?_⟩
  · intro h
    unfold costImpact
    rw [if_pos h]
  · intro h
    unfold costImpact
    rw [if_neg h]
  · intro h1 h2
    have h3 : largeChangeThreshold < |d| :=
      lt_trans (by decide : largeChangeThreshold < (5000000 : Int)) h2
    constructor
    · exact costImpact_rvt_large name d h1 h3
    · unfold changePriority
      rw [if_pos h1, if_pos h2]

/-- C7 witness: a .rvt file with size delta 6000001 bytes is magnified to
cost 22500 and classified critical. -/
theorem C7_magnification_witness :
    costImpact "big.rvt" 6000001 = baseCostRaw "big.rvt" * magnificationFactor
    ∧ costImpact "big.rvt" 6000001 = 22500
    ∧ changePriority "big.rvt" 6000001 = Priority.critical :=
  ⟨(C7_magnification "big.rvt" 6000001).1 (by decide),
   ((C7_magnification "big.rvt" 6000001).2.2 (by decide) (by decide)).1,
   ((C7_magnification "big.rvt" 6000001).2.2 (by decide) (by decide)).2⟩

/-- C8: a version list with fewer than two entries yields no change record. -/
theorem C8_short_version_list_no_change (name : String)
    (versions : List VersionRecord) (t : Nat) (h : versions.length < 2) :
    compareVersions name versions t = none := by
  cases versions with
  | nil => rfl
  | cons a tail =>
    cases tail with
    | nil => rfl
    | cons b rest =>
      exfalso
      simp only [List.length_cons] at h
      omega

/-- C8 witness: a single-version file produces no change. -/
theorem C8_short_version_list_witness :
    compareVersions "slab.rvt" [ slabV1] 0 = none :=
  C8_short_version_list_no_change "slab.rvt" [ slabV1] 0 (by decide)

/-- C9: every change record the checker stores, fabricated or detected, has
priority critical, high or medium; low is never assigned on any input. -/
theorem C9_no_low_priority (projectExists hasAutodeskId hasValidToken : Bool)
    (fetch : FetchResult) (now : Nat → Nat) (cs : List Change)
    (h : checkProjectForChanges projectExists hasAutodeskId hasValidToken fetch now
      = some cs) :
    ∀ c ∈ cs, c.priority = Priority.critical ∨ c.priority = Priority.high
      ∨ c.priority = Priority.medium := by
  intro c hc
  cases projectExists with
  | false =>
    have he : checkProjectForChanges false hasAutodeskId hasValidToken fetch now
        = none := rfl
    rw [he] at h
    exact Option.noConfusion h
  | true =>
    cases hasAutodeskId with
    | false =>
      have he : checkProjectForChanges true false hasValidToken fetch now
          = some [ mockNoLinkChange (now 0)] := rfl
      rw [he, Option.some.injEq] at h
      subst h
      rw [List.mem_singleton] at hc
      subst hc
      exact Or.inr (Or.inr rfl)
    | true =>
      cases hasValidToken with
      | false =>
        have he : checkProjectForChanges true true false fetch now
            = some [ mockNoTokenChange (now 0)] := rfl
        rw [he, Option.some.injEq] at h
        subst h
        rw [List.mem_singleton] at hc
        subst hc
        exact Or.inr (Or.inr rfl)
      | true =>
        cases fetch with
        | noFolder =>
          have he : checkProjectForChanges true true true FetchResult.noFolder now
              = some [] := rfl
          rw [he, Option.some.injEq] at h
          subst h
          simp at hc
        | failure =>
          have he : checkProjectForChanges true true true FetchResult.failure now
              = some [] := rfl
          rw [he, Option.some.injEq] at h
          subst h
          simp at hc
        | ok contents =>
          have he : checkProjectForChanges true true true (FetchResult.ok contents) now
              = some (detectLoop now 0 (selectModelFiles contents)) := rfl
          rw [he, Option.some.injEq] at h
          subst h
          exact detectLoop_mem_priority now (selectModelFiles contents) 0 c hc

/-- C9 witness: the fabricated token-expired record stored by a concrete run
has priority medium. -/
theorem C9_no_low_priority_witness :
    (mockNoTokenChange 0).priority = Priority.critical
    ∨ (mockNoTokenChange 0).priority = Priority.high
    ∨ (mockNoTokenChange 0).priority = Priority.medium :=
  C9_no_low_priority true true false (FetchResult.ok []) idClock
    [ mockNoTokenChange 0] rfl (mockNoTokenChange 0) (List.mem_singleton.mpr rfl)

/-- C10: the emailed change report renders detail entries for at most the
first ten changes of the list, entry i showing change i, while the headline
total is the full list length. -/
theorem C10_report_detail_limit (changes : List Change) :
    (buildChangeReport changes).total_changes = changes.length
    ∧ (buildChangeReport changes).detailEntries.length = min 10 changes.length
    ∧ ∀ i : Nat, i < 10 →
        (buildChangeReport changes).detailEntries[i]? = changes[i]? := by
  refine ⟨rfl, ?_, ?_⟩
  · show (changes.take 10).length = min 10 changes.length
    simp [List.length_take]
  · intro i hi
    show (changes.take 10)[i]? = changes[i]?
    exact List.getElem?_take_of_lt hi

/-- C10 witness: on a concrete two-change list the first rendered entry is
the first change of the list. -/
theorem C10_report_detail_limit_witness :
    (buildChangeReport [ sampleChange, oneMediumChange]).detailEntries[0]?
      = [ sampleChange, oneMediumChange][0]? :=
  (C10_report_detail_limit [ sampleChange, oneMediumChange]).2.2 0 (by decide)

end Corviu
